import Mathlib

/-
  Shallow embedding of `get_filtered_snapshots.py`, an Azure snapshot
  reporting utility.  The program shells out to the `az` CLI, parses the
  JSON it returns, and renders console tables.

  Modelling conventions:
  * The outside world (child processes spawned by
    `asyncio.create_subprocess_shell`) is a function from the command
    string to a process outcome (`ProcResult`): either a completed
    process with a return code, stdout and stderr, or an exception
    raised during launch/communication.
  * Console output (the `rich` console) is modelled as a list of
    `ConsoleOut` events; rich markup tags such as `[bold red]` and
    leading newlines are elided from the message texts, and literal
    apostrophes in message texts are written with the `\x27` escape.
  * `bytes.decode()` is elided (stdout / stderr are already strings);
    `str.strip()` is modelled by `strip` below.
  * Python's `json.loads` is modelled by `json_loads`, a recursive
    descent parser producing the `Json` inductive.  Numbers with a
    fraction or exponent are kept symbolically in the `float`
    constructor (their numeric value is never inspected by the
    program); `\u` string escapes are not modelled.
  * Python truthiness on an `Optional[str]`: `if result:` succeeds
    exactly when the value is a non-`None`, non-empty string.
-/

/-- Model of Python `str.strip()`: drop whitespace from both ends. -/
def strip (s : String) : String :=
  ⟨((s.data.dropWhile Char.isWhitespace).reverse.dropWhile Char.isWhitespace).reverse⟩

/-- One console output event: a printed line, or a rendered table
(title plus the list of rows, each row a list of cells). -/
inductive ConsoleOut where
  | line (text : String)
  | table (title : String) (rows : List (List String))
deriving DecidableEq, Repr

/-- Outcome of one child process spawned by
`asyncio.create_subprocess_shell`: it either ran to completion with a
return code, stdout and stderr, or an exception was raised during
launch or communication. -/
inductive ProcResult where
  | completed (returncode : Int) (stdout : String) (stderr : String)
  | raised (msg : String)

/-- Embedding of `run_az_command` (source lines 11-27).  `world` maps a
command string to the outcome of running it.  Returns the value Python
returns (an optional string) together with the console events printed. -/
def run_az_command (world : String → ProcResult) (command : String) :
    Option String × List ConsoleOut :=
  match world command with
  | ProcResult.completed returncode stdout stderr =>
    if returncode = 0 then
      (some (strip stdout), [])
    else
      (none, [ConsoleOut.line ("Error running command: " ++ command),
              ConsoleOut.line ("Error message: " ++ strip stderr)])
  | ProcResult.raised msg =>
    (none, [ConsoleOut.line ("An error occurred: " ++ msg)])

/-- JSON values, as produced by Python `json.loads` on the outputs this
program consumes.  A number with a fractional part or exponent is kept
symbolically as `float digits frac exponent`. -/
inductive Json where
  | null
  | bool (b : Bool)
  | num (n : Int)
  | float (intPart : Int) (fracDigits : List Nat) (exp10 : Int)
  | str (s : String)
  | arr (elems : List Json)
  | obj (members : List (String × Json))

/-- JSON insignificant whitespace (the four characters `json.loads` skips). -/
def skipWs (cs : List Char) : List Char :=
  cs.dropWhile (fun c => c = ' ' || c = '\t' || c = '\n' || c = '\r')

/-- Parse the body of a JSON string after the opening quote, handling
the single-character escapes. -/
def parseStringBody (cs : List Char) : Option (String × List Char) :=
  match cs with
  | [] => none
  | '"' :: rest => some ("", rest)
  | '\\' :: c :: rest =>
    let esc : Option Char :=
      if c = '"' then some '"'
      else if c = '\\' then some '\\'
      else if c = '/' then some '/'
      else if c = 'n' then some '\n'
      else if c = 't' then some '\t'
      else if c = 'r' then some '\r'
      else if c = 'b' then some '\x08'
      else if c = 'f' then some '\x0C'
      else none
    match esc with
    | some e =>
      match parseStringBody rest with
      | some (s, rem) => some (⟨e :: s.data⟩, rem)
      | none => none
    | none => none
  | c :: rest =>
    match parseStringBody rest with
    | some (s, rem) => some (⟨c :: s.data⟩, rem)
    | none => none

/-- Digits of a numeral to the natural number they denote. -/
def digitsToNat (cs : List Char) : Nat :=
  cs.foldl (fun acc c => acc * 10 + (c.toNat - 48)) 0

/-- Parse the digits, optional fraction and optional exponent of a JSON
number whose optional leading minus sign has already been consumed.
JSON forbids leading zeros in the integer part. -/
def parseNumBody (neg : Bool) (cs : List Char) : Option (Json × List Char) :=
  let ds := cs.takeWhile Char.isDigit
  if ds.isEmpty then none
  else if 2 ≤ ds.length ∧ ds.headI = '0' then none
  else
    let n : Int := Int.ofNat (digitsToNat ds)
    let n := if neg then -n else n
    let rest := cs.drop ds.length
    match rest with
    | '.' :: rest2 =>
      let fs := rest2.takeWhile Char.isDigit
      if fs.isEmpty then none
      else
        let rest3 := rest2.drop fs.length
        match rest3 with
        | 'e' :: rest4 => parseExp n (fs.map (fun c => c.toNat - 48)) rest4
        | 'E' :: rest4 => parseExp n (fs.map (fun c => c.toNat - 48)) rest4
        | _ => some (Json.float n (fs.map (fun c => c.toNat - 48)) 0, rest3)
    | 'e' :: rest2 => parseExp n [] rest2
    | 'E' :: rest2 => parseExp n [] rest2
    | _ => some (Json.num n, rest)
where
  /-- Parse the signed digits of an exponent part. -/
  parseExp (n : Int) (frac : List Nat) (cs : List Char) : Option (Json × List Char) :=
    let (eneg, cs2) :=
      match cs with
      | '-' :: r => (true, r)
      | '+' :: r => (false, r)
      | _ => (false, cs)
    let es := cs2.takeWhile Char.isDigit
    if es.isEmpty then none
    else
      let e : Int := Int.ofNat (digitsToNat es)
      some (Json.float n frac (if eneg then -e else e), cs2.drop es.length)

mutual

/-- Fuel-indexed recursive descent parser for one JSON value.  Returns
the value and the unconsumed remainder, or an error message. -/
def parseValue : Nat → List Char → Except String (Json × List Char)
  | 0, _ => Except.error "recursion limit exceeded"
  | fuel + 1, cs =>
    match skipWs cs with
    | [] => Except.error "Expecting value"
    | 'n' :: 'u' :: 'l' :: 'l' :: rest => Except.ok (Json.null, rest)
    | 't' :: 'r' :: 'u' :: 'e' :: rest => Except.ok (Json.bool true, rest)
    | 'f' :: 'a' :: 'l' :: 's' :: 'e' :: rest => Except.ok (Json.bool false, rest)
    | '"' :: rest =>
      match parseStringBody rest with
      | some (s, rem) => Except.ok (Json.str s, rem)
      | none => Except.error "Unterminated string"
    | '[' :: rest =>
      match skipWs rest with
      | ']' :: rem => Except.ok (Json.arr [], rem)
      | _ =>
        match parseElems fuel rest with
        | Except.ok (xs, rem) => Except.ok (Json.arr xs, rem)
        | Except.error e => Except.error e
    | '\x7b' :: rest =>
      match skipWs rest with
      | '\x7d' :: rem => Except.ok (Json.obj [], rem)
      | _ =>
        match parseMembers fuel rest with
        | Except.ok (ms, rem) => Except.ok (Json.obj ms, rem)
        | Except.error e => Except.error e
    | '-' :: rest =>
      match parseNumBody true rest with
      | some (j, rem) => Except.ok (j, rem)
      | none => Except.error "Expecting value"
    | other =>
      match parseNumBody false other with
      | some (j, rem) => Except.ok (j, rem)
      | none => Except.error "Expecting value"

/-- Parse the comma-separated elements of a non-empty JSON array, up to
and including the closing bracket. -/
def parseElems : Nat → List Char → Except String (List Json × List Char)
  | 0, _ => Except.error "recursion limit exceeded"
  | fuel + 1, cs =>
    match parseValue fuel cs with
    | Except.error e => Except.error e
    | Except.ok (v, rem) =>
      match skipWs rem with
      | ',' :: rem2 =>
        match parseElems fuel rem2 with
        | Except.ok (xs, rem3) => Except.ok (v :: xs, rem3)
        | Except.error e => Except.error e
      | ']' :: rem2 => Except.ok ([v], rem2)
      | _ => Except.error "Expecting comma delimiter"

/-- Parse the comma-separated members of a non-empty JSON object, up to
and including the closing brace. -/
def parseMembers : Nat → List Char → Except String (List (String × Json) × List Char)
  | 0, _ => Except.error "recursion limit exceeded"
  | fuel + 1, cs =>
    match skipWs cs with
    | '"' :: rest =>
      match parseStringBody rest with
      | none => Except.error "Unterminated string"
      | some (k, rem) =>
        match skipWs rem with
        | ':' :: rem2 =>
          match parseValue fuel rem2 with
          | Except.error e => Except.error e
          | Except.ok (v, rem3) =>
            match skipWs rem3 with
            | ',' :: rem4 =>
              match parseMembers fuel rem4 with
              | Except.ok (ms, rem5) => Except.ok ((k, v) :: ms, rem5)
              | Except.error e => Except.error e
            | '\x7d' :: rem4 => Except.ok ([(k, v)], rem4)
            | _ => Except.error "Expecting comma delimiter"
        | _ => Except.error "Expecting colon delimiter"
    | _ => Except.error "Expecting property name"

end

/-- Model of Python `json.loads`: parse one JSON document, requiring
that only whitespace remains after it. -/
def json_loads (s : String) : Except String Json :=
  match parseValue (2 * s.length + 2) s.data with
  | Except.ok (v, rest) =>
    if (skipWs rest).isEmpty then Except.ok v else Except.error "Extra data"
  | Except.error e => Except.error e

/-- The subscription-listing command issued by `get_subscriptions`
(source line 30). -/
def az_account_list_command : String :=
  "az account list --query \x27[].\x7bname:name, id:id\x7d\x27 -o json"

/-- The snapshot-listing command built by `get_snapshots`
(source line 36). -/
def az_snapshot_list_command (subscription_id start_date end_date : String) : String :=
  "az snapshot list --subscription " ++ subscription_id ++
    " --query \x27[?timeCreated>=`" ++ start_date ++ "` && timeCreated<=`" ++ end_date ++
    "`].\x7bname:name, resourceGroup:resourceGroup, timeCreated:timeCreated, diskSizeGb:diskSizeGb, id:id, diskState:diskState, createdBy:managedBy\x7d\x27 -o json"

/-- Embedding of `get_subscriptions` (source lines 29-33).  Python
`if result:` is true exactly for a non-`None`, non-empty string, in
which case the result is `json.loads(result)` (which may raise, hence
the `Except`); otherwise the function returns `[]`. -/
def get_subscriptions (world : String → ProcResult) : Except String Json :=
  match (run_az_command world az_account_list_command).1 with
  | some result => if result = "" then Except.ok (Json.arr []) else json_loads result
  | none => Except.ok (Json.arr [])

/-- Embedding of `get_snapshots` (source lines 35-40), same result
convention as `get_subscriptions`. -/
def get_snapshots (world : String → ProcResult)
    (subscription_id start_date end_date : String) : Except String Json :=
  match (run_az_command world
      (az_snapshot_list_command subscription_id start_date end_date)).1 with
  | some result => if result = "" then Except.ok (Json.arr []) else json_loads result
  | none => Except.ok (Json.arr [])

/-- A timezone-aware Python `datetime` pinned to UTC, at second
precision (every datetime this program constructs has
`microsecond = 0`). -/
structure Datetime where
  year : Nat
  month : Nat
  day : Nat
  hour : Nat
  minute : Nat
  second : Nat
deriving DecidableEq, Repr

/-- Gregorian leap-year rule, as implemented by Python `datetime`. -/
def isLeapYear (y : Nat) : Bool :=
  y % 4 = 0 && (y % 100 != 0 || y % 400 = 0)

/-- Number of days in a month of the Gregorian calendar. -/
def daysInMonth (y m : Nat) : Nat :=
  if m = 2 then (if isLeapYear y then 29 else 28)
  else if m = 4 ∨ m = 6 ∨ m = 9 ∨ m = 11 then 30
  else 31

/-- The calendar day after `(y, m, d)`. -/
def nextDay (y m d : Nat) : Nat × Nat × Nat :=
  if d < daysInMonth y m then (y, m, d + 1)
  else if m < 12 then (y, m + 1, 1)
  else (y + 1, 1, 1)

/-- Advance a calendar date by `n` days: the effect of adding
`timedelta(days=n)` to a UTC datetime whose time-of-day it leaves
unchanged. -/
def addDays (y m d : Nat) : Nat → Nat × Nat × Nat
  | 0 => (y, m, d)
  | n + 1 => addDays (nextDay y m d).1 (nextDay y m d).2.1 (nextDay y m d).2.2 n

/-- Zero-padded two-digit numeral. -/
def pad2 (n : Nat) : String :=
  if n < 10 then "0" ++ toString n else toString n

/-- Zero-padded four-digit numeral (Python formats years with `%04d`). -/
def pad4 (n : Nat) : String :=
  if n < 10 then "000" ++ toString n
  else if n < 100 then "00" ++ toString n
  else if n < 1000 then "0" ++ toString n
  else toString n

/-- Python `datetime.isoformat()` for a UTC datetime with
`microsecond = 0`: `YYYY-MM-DDTHH:MM:SS+00:00`. -/
def isoformat (dt : Datetime) : String :=
  pad4 dt.year ++ "-" ++ pad2 dt.month ++ "-" ++ pad2 dt.day ++ "T" ++
    pad2 dt.hour ++ ":" ++ pad2 dt.minute ++ ":" ++ pad2 dt.second ++ "+00:00"

/-- Subtracting `timedelta(seconds=1)` from a UTC datetime, with
calendar borrow down to the previous day / month / year. -/
def subtractOneSecond (dt : Datetime) : Datetime :=
  if dt.second > 0 then { dt with second := dt.second - 1 }
  else if dt.minute > 0 then { dt with minute := dt.minute - 1, second := 59 }
  else if dt.hour > 0 then { dt with hour := dt.hour - 1, minute := 59, second := 59 }
  else if dt.day > 1 then { dt with day := dt.day - 1, hour := 23, minute := 59, second := 59 }
  else if dt.month > 1 then
    ⟨dt.year, dt.month - 1, daysInMonth dt.year (dt.month - 1), 23, 59, 59⟩
  else ⟨dt.year - 1, 12, 31, 23, 59, 59⟩

/-- Embedding of `get_default_date_range` (source lines 67-71) before
serialization.  `start_of_month` is `today` with `day=1` and the time
fields zeroed; the end is `(start_of_month + timedelta(days=32))`
(whose time-of-day stays `00:00:00`), then `.replace(day=1)`, minus
one second. -/
def get_default_date_range_dt (today : Datetime) : Datetime × Datetime :=
  let start_of_month : Datetime := ⟨today.year, today.month, 1, 0, 0, 0⟩
  let rolled := addDays start_of_month.year start_of_month.month start_of_month.day 32
  let end_of_month := subtractOneSecond ⟨rolled.1, rolled.2.1, 1, 0, 0, 0⟩
  (start_of_month, end_of_month)

/-- Embedding of `get_default_date_range` (source lines 67-71): the two
boundaries serialized with `isoformat`. -/
def get_default_date_range (today : Datetime) : String × String :=
  (isoformat (get_default_date_range_dt today).1,
   isoformat (get_default_date_range_dt today).2)

/-- Injective ranking of datetimes (valid fields assumed), used to
state `start <= end`. -/
def timeKey (dt : Datetime) : Nat :=
  ((((dt.year * 13 + dt.month) * 32 + dt.day) * 24 + dt.hour) * 60 + dt.minute) * 60 +
    dt.second

/-- Split a character list into the groups separated by `-`
(Python-style `split`, keeping empty groups). -/
def splitOnDash (cs : List Char) : List (List Char) :=
  match cs with
  | [] => [[]]
  | c :: rest =>
    let r := splitOnDash rest
    if c = '-' then [] :: r
    else
      match r with
      | [] => [[c]]
      | g :: gs => (c :: g) :: gs

/-- Model of `datetime.strptime(s, "%Y-%m-%d")`: exactly three
dash-separated groups of digits, the year of exactly four digits, month
and day of one or two digits, the whole string consumed, and the result
a valid calendar date of year at least 1. -/
def parse_ymd (s : String) : Option (Nat × Nat × Nat) :=
  match splitOnDash s.data with
  | [ys, ms, ds] =>
    if ys.length = 4 ∧ ys.all Char.isDigit ∧
        1 ≤ ms.length ∧ ms.length ≤ 2 ∧ ms.all Char.isDigit ∧
        1 ≤ ds.length ∧ ds.length ≤ 2 ∧ ds.all Char.isDigit then
      let y := digitsToNat ys
      let m := digitsToNat ms
      let d := digitsToNat ds
      if 1 ≤ y ∧ 1 ≤ m ∧ m ≤ 12 ∧ 1 ≤ d ∧ d ≤ daysInMonth y m then
        some (y, m, d)
      else none
    else none
  | _ => none

/-- Embedding of the date validation block of `main` (source lines
82-89).  On success the start is that date at `00:00:00` UTC and the
end that date at `23:59:59` UTC, both serialized; on a `ValueError`
from either parse, both inputs are discarded for the supplied defaults
and a warning is printed. -/
def validate_dates (start_input end_input default_start default_end : String) :
    (String × String) × List ConsoleOut :=
  match parse_ymd start_input, parse_ymd end_input with
  | some (y1, m1, d1), some (y2, m2, d2) =>
    ((isoformat ⟨y1, m1, d1, 0, 0, 0⟩, isoformat ⟨y2, m2, d2, 23, 59, 59⟩), [])
  | _, _ =>
    ((default_start, default_end),
     [ConsoleOut.line "Invalid date format. Using default date range for the current month."])

/-- A subscription record, as selected by the account-list query. -/
structure Subscription where
  name : String
  id : String
deriving DecidableEq, Repr

/-- A snapshot record, as selected by the snapshot-list query
(`createdBy` is the provider's `managedBy`, which may be JSON null,
hence an `Option`). -/
structure Snapshot where
  name : String
  resourceGroup : String
  timeCreated : String
  diskSizeGb : Nat
  id : String
  diskState : String
  createdBy : Option String
deriving DecidableEq, Repr

/-- Rendering of a `createdBy` cell: Python
`snapshot['createdBy'] if snapshot['createdBy'] else "N/A"`, where both
`None` and the empty string are falsy. -/
def createdByCell : Option String → String
  | none => "N/A"
  | some v => if v = "" then "N/A" else v

/-- One row of the per-subscription table (source lines 56-63). -/
def subscriptionRow (s : Snapshot) : List String :=
  [s.name, s.resourceGroup, s.timeCreated, toString s.diskSizeGb, s.diskState,
   createdByCell s.createdBy]

/-- One row of the summary table (source lines 112-117). -/
def summaryRow (s : Snapshot) : List String :=
  [s.name, s.timeCreated,
   if s.diskState = "Attached" then "Attached" else "Unattached",
   createdByCell s.createdBy]

/-- Embedding of `display_snapshots` (source lines 42-65): an
informational line when the sequence is empty, otherwise the bordered
per-subscription table. -/
def display_snapshots (snapshots : List Snapshot) (subscription_name : String) :
    List ConsoleOut :=
  if snapshots.isEmpty then
    [ConsoleOut.line ("No snapshots found in subscription: " ++ subscription_name)]
  else
    [ConsoleOut.table ("Snapshots in " ++ subscription_name)
      (snapshots.map subscriptionRow)]

/-- The per-subscription loop of `main` (source lines 96-102): for each
subscription in listing order, the section header, the
`display_snapshots` output, and the snapshots appended to the running
aggregate.  `fetch` abstracts the parsed result of `get_snapshots` for
one subscription in this run. -/
def searchSections (fetch : Subscription → List Snapshot) :
    List Subscription → List ConsoleOut × List Snapshot
  | [] => ([], [])
  | sub :: rest =>
    (ConsoleOut.line ("Searching in subscription: " ++ sub.name) ::
       (display_snapshots (fetch sub) sub.name ++ (searchSections fetch rest).1),
     fetch sub ++ (searchSections fetch rest).2)

/-- Embedding of `main` from the subscription check onward (source
lines 91-123): early exit with an instructional error when no
subscriptions were found, otherwise the per-subscription sections
followed by the summary table, the total count and the closing line. -/
def main_after_subscriptions (fetch : Subscription → List Snapshot)
    (subscriptions : List Subscription) : List ConsoleOut :=
  if subscriptions.isEmpty then
    [ConsoleOut.line
      "No subscriptions found. Please make sure you\x27re logged in with \x27az login\x27."]
  else
    (searchSections fetch subscriptions).1 ++
      [ConsoleOut.line "Snapshot Summary:",
       ConsoleOut.table "Snapshot Summary"
         ((searchSections fetch subscriptions).2.map summaryRow),
       ConsoleOut.line ("Total snapshots found: " ++
         toString (searchSections fetch subscriptions).2.length),
       ConsoleOut.line "Snapshot search complete!"]

/-! ## Theorems -/

/-- C2: the Command Executor returns exactly the trimmed standard
output on exit code 0; on a non-zero exit it returns none and prints
the command text and the trimmed standard error; on an exception during
launch or communication it prints a message including the exception
text and returns none. -/
theorem c2_run_az_command_contract (world : String → ProcResult) (command : String) :
    (∀ stdout stderr, world command = ProcResult.completed 0 stdout stderr →
        run_az_command world command = (some (strip stdout), [])) ∧
    (∀ rc stdout stderr, world command = ProcResult.completed rc stdout stderr →
        rc ≠ 0 →
        run_az_command world command =
          (none, [ConsoleOut.line ("Error running command: " ++ command),
                  ConsoleOut.line ("Error message: " ++ strip stderr)])) ∧
    (∀ msg, world command = ProcResult.raised msg →
        run_az_command world command =
          (none, [ConsoleOut.line ("An error occurred: " ++ msg)])) := by
  refine ⟨?_, ?_, ?_⟩
  · intro stdout stderr h
    simp [run_az_command, h]
  · intro rc stdout stderr h hrc
    simp [run_az_command, h, hrc]
  · intro msg h
    simp [run_az_command, h]

/-- Witness for C2 at a concrete zero-exit run. -/
theorem c2_run_az_command_contract_witness :
    run_az_command (fun _ => ProcResult.completed 0 "  ok out  " "") "az account list" =
      (some "ok out", []) :=
  (c2_run_az_command_contract (fun _ => ProcResult.completed 0 "  ok out  " "")
    "az account list").1 "  ok out  " "" rfl

/-- C1: whenever the Command Executor returns none (failed command) or
an empty / whitespace-only output, both retrievers return the empty
list — an `Except.ok`, never an error. -/
theorem c1_retrievers_empty_on_failure (world : String → ProcResult)
    (subscription_id start_date end_date : String)
    (h1 : (run_az_command world az_account_list_command).1 = none ∨
      ∃ stdout stderr,
        world az_account_list_command = ProcResult.completed 0 stdout stderr ∧
        strip stdout = "")
    (h2 : (run_az_command world
        (az_snapshot_list_command subscription_id start_date end_date)).1 = none ∨
      ∃ stdout stderr,
        world (az_snapshot_list_command subscription_id start_date end_date) =
          ProcResult.completed 0 stdout stderr ∧
        strip stdout = "") :
    get_subscriptions world = Except.ok (Json.arr []) ∧
    get_snapshots world subscription_id start_date end_date =
      Except.ok (Json.arr []) := by
  constructor
  · rcases h1 with h | ⟨stdout, stderr, hw, hs⟩
    · simp [get_subscriptions, h]
    · simp [get_subscriptions, run_az_command, hw, hs]
  · rcases h2 with h | ⟨stdout, stderr, hw, hs⟩
    · simp [get_snapshots, h]
    · simp [get_snapshots, run_az_command, hw, hs]

/-- Witness for C1: a non-zero exit for both commands. -/
theorem c1_retrievers_empty_on_failure_witness :
    get_subscriptions (fun _ => ProcResult.completed 1 "" "permission denied") =
        Except.ok (Json.arr []) ∧
    get_snapshots (fun _ => ProcResult.completed 1 "" "permission denied")
        "sub-1" "2024-02-01T00:00:00+00:00" "2024-02-29T23:59:59+00:00" =
      Except.ok (Json.arr []) :=
  c1_retrievers_empty_on_failure (fun _ => ProcResult.completed 1 "" "permission denied")
    "sub-1" "2024-02-01T00:00:00+00:00" "2024-02-29T23:59:59+00:00"
    (Or.inl rfl) (Or.inl rfl)

/-- C9: JSON parsing of the tool output is unguarded — on a successful
non-empty output each retriever is exactly `json_loads` of that output,
so it fails precisely when the output is not valid JSON, and some
non-empty output is not valid JSON. -/
theorem c9_unguarded_json_parse (world : String → ProcResult)
    (subscription_id start_date end_date stdout stderr : String)
    (h1 : world az_account_list_command = ProcResult.completed 0 stdout stderr)
    (h2 : world (az_snapshot_list_command subscription_id start_date end_date) =
      ProcResult.completed 0 stdout stderr)
    (hne : strip stdout ≠ "") :
    get_subscriptions world = json_loads (strip stdout) ∧
    get_snapshots world subscription_id start_date end_date =
      json_loads (strip stdout) ∧
    ((∃ e, json_loads (strip stdout) = Except.error e) ↔
      (∃ e, get_subscriptions world = Except.error e)) ∧
    ∃ s, s ≠ "" ∧ ∃ e, json_loads s = Except.error e := by
  have hsub : get_subscriptions world = json_loads (strip stdout) := by
    simp [get_subscriptions, run_az_command, h1, hne]
  have hsnap : get_snapshots world subscription_id start_date end_date =
      json_loads (strip stdout) := by
    simp [get_snapshots, run_az_command, h2, hne]
  exact ⟨hsub, hsnap, by rw [hsub], ⟨"not json", by decide, ⟨_, rfl⟩⟩⟩

/-- Witness for C9: the non-JSON output `not json` makes the retriever
raise a parse error. -/
theorem c9_unguarded_json_parse_witness :
    ∃ e, get_subscriptions (fun _ => ProcResult.completed 0 "not json" "") =
      Except.error e := by
  have h := c9_unguarded_json_parse (fun _ => ProcResult.completed 0 "not json" "")
    "sub-1" "2024-02-01" "2024-02-29" "not json" "" rfl rfl (by decide)
  rw [h.1]
  exact ⟨_, rfl⟩

/-- C10: a successfully parsed JSON value is passed through unchanged
by both retrievers even when it is not an array, and some well-formed
JSON documents are not arrays. -/
theorem c10_nonarray_passed_through (world : String → ProcResult)
    (subscription_id start_date end_date stdout stderr : String) (v : Json)
    (h1 : world az_account_list_command = ProcResult.completed 0 stdout stderr)
    (h2 : world (az_snapshot_list_command subscription_id start_date end_date) =
      ProcResult.completed 0 stdout stderr)
    (hne : strip stdout ≠ "")
    (hv : json_loads (strip stdout) = Except.ok v) :
    get_subscriptions world = Except.ok v ∧
    get_snapshots world subscription_id start_date end_date = Except.ok v ∧
    ∃ s w, s ≠ "" ∧ json_loads s = Except.ok w ∧ ∀ elems, w ≠ Json.arr elems := by
  refine ⟨?_, ?_, "42", Json.num 42, by decide, rfl, ?_⟩
  · simp [get_subscriptions, run_az_command, h1, hne, hv]
  · simp [get_snapshots, run_az_command, h2, hne, hv]
  · intro elems hcontra
    exact Json.noConfusion hcontra

/-- Witness for C10: a JSON object output is returned as-is, not as a
list. -/
theorem c10_nonarray_passed_through_witness :
    get_subscriptions (fun _ => ProcResult.completed 0 "\x7b\"name\": \"x\"\x7d" "") =
      Except.ok (Json.obj [("name", Json.str "x")]) :=
  (c10_nonarray_passed_through
    (fun _ => ProcResult.completed 0 "\x7b\"name\": \"x\"\x7d" "")
    "sub-1" "2024-02-01" "2024-02-29" "\x7b\"name\": \"x\"\x7d" ""
    (Json.obj [("name", Json.str "x")]) rfl rfl (by decide) rfl).1

/-- Every Gregorian month has at least 28 days. -/
lemma daysInMonth_ge (y m : Nat) : 28 ≤ daysInMonth y m := by
  unfold daysInMonth
  split_ifs <;> omega

/-- Every Gregorian month has at most 31 days. -/
lemma daysInMonth_le (y m : Nat) : daysInMonth y m ≤ 31 := by
  unfold daysInMonth
  split_ifs <;> omega

/-- Advancing by days that stay inside the month only moves the day
field. -/
lemma addDays_within (y m : Nat) :
    ∀ n d, d + n ≤ daysInMonth y m → addDays y m d n = (y, m, d + n) := by
  intro n
  induction n with
  | zero => intro d _; simp [addDays]
  | succ k ih =>
    intro d h
    have hd : d < daysInMonth y m := by omega
    have hnext : nextDay y m d = (y, m, d + 1) := by simp [nextDay, hd]
    have h3 : d + (k + 1) = (d + 1) + k := by omega
    rw [h3]
    simp only [addDays]
    rw [hnext]
    exact ih (d + 1) (by omega)

/-- Day-advancing splits over addition of day counts. -/
lemma addDays_add (y m d a b : Nat) :
    addDays y m d (a + b) =
      addDays (addDays y m d a).1 (addDays y m d a).2.1 (addDays y m d a).2.2 b := by
  induction a generalizing y m d with
  | zero => simp [addDays]
  | succ k ih =>
    rw [Nat.add_right_comm k 1 b]
    simp only [addDays]
    exact ih (nextDay y m d).1 (nextDay y m d).2.1 (nextDay y m d).2.2

/-- Adding 32 days to the first of a month lands in the following
month (with year rollover in December), for every month length. -/
lemma addDays_first_of_month (y m : Nat) (hm1 : 1 ≤ m) (hm2 : m ≤ 12) :
    (addDays y m 1 32).1 = (if m = 12 then y + 1 else y) ∧
    (addDays y m 1 32).2.1 = (if m = 12 then 1 else m + 1) := by
  have h28 : 28 ≤ daysInMonth y m := daysInMonth_ge y m
  have h31 : daysInMonth y m ≤ 31 := daysInMonth_le y m
  have hsplit : 32 = (daysInMonth y m - 1) + (33 - daysInMonth y m) := by omega
  rw [hsplit, addDays_add]
  rw [addDays_within y m (daysInMonth y m - 1) 1 (by omega)]
  show (addDays y m (1 + (daysInMonth y m - 1)) (33 - daysInMonth y m)).1 = _ ∧
    (addDays y m (1 + (daysInMonth y m - 1)) (33 - daysInMonth y m)).2.1 = _
  have hq : 1 + (daysInMonth y m - 1) = daysInMonth y m := by omega
  rw [hq]
  have hs2 : 33 - daysInMonth y m = (32 - daysInMonth y m) + 1 := by omega
  rw [hs2]
  simp only [addDays]
  have hnd : ¬ (daysInMonth y m < daysInMonth y m) := by omega
  by_cases hm12 : m = 12
  · have hn : nextDay y m (daysInMonth y m) = (y + 1, 1, 1) := by
      subst hm12
      simp [nextDay, hnd]
    rw [hn]
    show (addDays (y + 1) 1 1 (32 - daysInMonth y m)).1 = _ ∧
      (addDays (y + 1) 1 1 (32 - daysInMonth y m)).2.1 = _
    have h28' : 28 ≤ daysInMonth (y + 1) 1 := daysInMonth_ge (y + 1) 1
    rw [addDays_within (y + 1) 1 (32 - daysInMonth y m) 1 (by omega)]
    simp [hm12]
  · have hmlt : m < 12 := by omega
    have hn : nextDay y m (daysInMonth y m) = (y, m + 1, 1) := by
      simp [nextDay, hnd, hmlt]
    rw [hn]
    show (addDays y (m + 1) 1 (32 - daysInMonth y m)).1 = _ ∧
      (addDays y (m + 1) 1 (32 - daysInMonth y m)).2.1 = _
    have h28' : 28 ≤ daysInMonth y (m + 1) := daysInMonth_ge y (m + 1)
    rw [addDays_within y (m + 1) (32 - daysInMonth y m) 1 (by omega)]
    simp [hm12]

/-- C4: for every current UTC date with a valid month, the default
range starts at 00:00:00 on the first day of the current month and
ends at 23:59:59 on the last day of the same month (all month lengths,
leap years included), and start is never after end. -/
theorem c4_default_range_current_month (today : Datetime)
    (hm1 : 1 ≤ today.month) (hm2 : today.month ≤ 12) :
    get_default_date_range_dt today =
      (⟨today.year, today.month, 1, 0, 0, 0⟩,
       ⟨today.year, today.month, daysInMonth today.year today.month, 23, 59, 59⟩) ∧
    get_default_date_range today =
      (isoformat ⟨today.year, today.month, 1, 0, 0, 0⟩,
       isoformat ⟨today.year, today.month, daysInMonth today.year today.month,
         23, 59, 59⟩) ∧
    timeKey ⟨today.year, today.month, 1, 0, 0, 0⟩ ≤
      timeKey ⟨today.year, today.month, daysInMonth today.year today.month,
        23, 59, 59⟩ := by
  obtain ⟨hy, hm⟩ := addDays_first_of_month today.year today.month hm1 hm2
  have hdt : get_default_date_range_dt today =
      (⟨today.year, today.month, 1, 0, 0, 0⟩,
       ⟨today.year, today.month, daysInMonth today.year today.month, 23, 59, 59⟩) := by
    unfold get_default_date_range_dt
    simp only []
    rw [hy, hm]
    by_cases hm12 : today.month = 12
    · simp [hm12, subtractOneSecond, daysInMonth]
    · have hlt : 1 < today.month + 1 := by omega
      simp [hm12, subtractOneSecond, hlt]
  refine ⟨hdt, ?_, ?_⟩
  · unfold get_default_date_range
    rw [hdt]
  · have h28 := daysInMonth_ge today.year today.month
    simp [timeKey]
    omega

/-- Witness for C4 at a concrete leap-February date. -/
theorem c4_default_range_current_month_witness :
    get_default_date_range_dt ⟨2024, 2, 10, 12, 30, 45⟩ =
      (⟨2024, 2, 1, 0, 0, 0⟩, ⟨2024, 2, 29, 23, 59, 59⟩) ∧
    get_default_date_range ⟨2024, 2, 10, 12, 30, 45⟩ =
      ("2024-02-01T00:00:00+00:00", "2024-02-29T23:59:59+00:00") ∧
    timeKey ⟨2024, 2, 1, 0, 0, 0⟩ ≤ timeKey ⟨2024, 2, 29, 23, 59, 59⟩ :=
  c4_default_range_current_month ⟨2024, 2, 10, 12, 30, 45⟩ (by decide) (by decide)

/-- C3: if both user inputs parse as calendar dates the boundaries are
that start date at 00:00:00 UTC and that end date at 23:59:59 UTC in
ISO form; if either fails to parse, both are replaced by the full
computed default range and a warning is printed. -/
theorem c3_date_validation (start_input end_input : String) (today : Datetime) :
    (∀ y1 m1 d1 y2 m2 d2,
        parse_ymd start_input = some (y1, m1, d1) →
        parse_ymd end_input = some (y2, m2, d2) →
        validate_dates start_input end_input
            (get_default_date_range today).1 (get_default_date_range today).2 =
          ((isoformat ⟨y1, m1, d1, 0, 0, 0⟩, isoformat ⟨y2, m2, d2, 23, 59, 59⟩),
           [])) ∧
    ((parse_ymd start_input = none ∨ parse_ymd end_input = none) →
        validate_dates start_input end_input
            (get_default_date_range today).1 (get_default_date_range today).2 =
          (((get_default_date_range today).1, (get_default_date_range today).2),
           [ConsoleOut.line
             "Invalid date format. Using default date range for the current month."])) := by
  constructor
  · intro y1 m1 d1 y2 m2 d2 h1 h2
    simp [validate_dates, h1, h2]
  · intro h
    rcases h with h | h
    · cases h2 : parse_ymd end_input <;> simp [validate_dates, h, h2]
    · cases h1 : parse_ymd start_input <;> simp [validate_dates, h, h1]

/-- Witness for C3: the concrete inputs of the spec example. -/
theorem c3_date_validation_witness :
    validate_dates "2024-02-15" "2024-02-20"
        (get_default_date_range ⟨2024, 2, 10, 12, 30, 45⟩).1
        (get_default_date_range ⟨2024, 2, 10, 12, 30, 45⟩).2 =
      (("2024-02-15T00:00:00+00:00", "2024-02-20T23:59:59+00:00"), []) :=
  (c3_date_validation "2024-02-15" "2024-02-20" ⟨2024, 2, 10, 12, 30, 45⟩).1
    2024 2 15 2024 2 20 rfl rfl

/-- The running aggregate built by the per-subscription loop is the
concatenation of the per-subscription results in listing order. -/
lemma searchSections_snd (fetch : Subscription → List Snapshot)
    (l : List Subscription) :
    (searchSections fetch l).2 = (l.map fetch).flatten := by
  induction l with
  | nil => simp [searchSections]
  | cons sub rest ih => simp [searchSections, ih]

/-- A subscription with an empty result contributes its informational
line to the per-subscription sections. -/
lemma noSnapshots_line_mem (fetch : Subscription → List Snapshot)
    (sub : Subscription) (hempty : fetch sub = []) :
    ∀ l : List Subscription, sub ∈ l →
      ConsoleOut.line ("No snapshots found in subscription: " ++ sub.name) ∈
        (searchSections fetch l).1 := by
  intro l
  induction l with
  | nil => intro h; cases h
  | cons a rest ih =>
    intro hsub
    rcases List.mem_cons.mp hsub with h | h
    · subst h
      simp [searchSections, display_snapshots, hempty]
    · exact List.mem_cons_of_mem _ (List.mem_append_right _ (ih h))

/-- C5: with a non-empty subscription list the aggregate is exactly the
concatenation of per-subscription results in listing order, the summary
table has one row per aggregated snapshot in that order, the printed
total is the length of the aggregate, and a subscription with an empty
result prints the informational line instead of a table. -/
theorem c5_summary_aggregation (fetch : Subscription → List Snapshot)
    (subscriptions : List Subscription) (h : subscriptions ≠ []) :
    (searchSections fetch subscriptions).2 = (subscriptions.map fetch).flatten ∧
    ConsoleOut.table "Snapshot Summary"
        (((subscriptions.map fetch).flatten).map summaryRow) ∈
      main_after_subscriptions fetch subscriptions ∧
    ConsoleOut.line ("Total snapshots found: " ++
        toString ((subscriptions.map fetch).flatten).length) ∈
      main_after_subscriptions fetch subscriptions ∧
    ∀ sub ∈ subscriptions, fetch sub = [] →
      display_snapshots (fetch sub) sub.name =
        [ConsoleOut.line ("No snapshots found in subscription: " ++ sub.name)] ∧
      ConsoleOut.line ("No snapshots found in subscription: " ++ sub.name) ∈
        main_after_subscriptions fetch subscriptions := by
  have hflat := searchSections_snd fetch subscriptions
  have hne : subscriptions.isEmpty = false := by
    cases subscriptions
    · exact absurd rfl h
    · rfl
  refine ⟨hflat, ?_, ?_, ?_⟩
  · simp [main_after_subscriptions, hne, hflat]
  · simp [main_after_subscriptions, hne, hflat]
  · intro sub hsub hempty
    have hmem := noSnapshots_line_mem fetch sub hempty subscriptions hsub
    constructor
    · simp [display_snapshots, hempty]
    · simp [main_after_subscriptions, hne]
      exact Or.inl hmem

/-- Witness for C5: subscription A yields two snapshots, B yields none;
the printed total is 2. -/
theorem c5_summary_aggregation_witness :
    ConsoleOut.line "Total snapshots found: 2" ∈
      main_after_subscriptions
        (fun sub => if sub.id = "a" then
            [⟨"s1", "rg", "t1", 10, "i1", "Attached", none⟩,
             ⟨"s2", "rg", "t2", 20, "i2", "Unattached", none⟩]
          else [])
        [⟨"A", "a"⟩, ⟨"B", "b"⟩] := by
  have h := (c5_summary_aggregation
      (fun sub => if sub.id = "a" then
          [⟨"s1", "rg", "t1", 10, "i1", "Attached", none⟩,
           ⟨"s2", "rg", "t2", 20, "i2", "Unattached", none⟩]
        else [])
      [⟨"A", "a"⟩, ⟨"B", "b"⟩] (by simp)).2.2.1
  exact h

/-- C6: the summary Status cell is the literal `Attached` exactly when
`diskState` equals `Attached`, and the literal `Unattached` for every
other value — a binary classification. -/
theorem c6_status_binary (s : Snapshot) :
    ((summaryRow s)[2]? = some "Attached" ↔ s.diskState = "Attached") ∧
    (s.diskState ≠ "Attached" → (summaryRow s)[2]? = some "Unattached") := by
  by_cases h : s.diskState = "Attached" <;> simp [summaryRow, h]

/-- Witness for C6: the unexpected state `Reserved` renders as
`Unattached`. -/
theorem c6_status_binary_witness :
    (summaryRow ⟨"snap", "rg", "2024-02-15T10:00:00+00:00", 100, "id1",
        "Reserved", none⟩)[2]? = some "Unattached" :=
  (c6_status_binary ⟨"snap", "rg", "2024-02-15T10:00:00+00:00", 100, "id1",
    "Reserved", none⟩).2 (by decide)

/-- C7: a null or empty `createdBy` renders as the literal `N/A` in
both the per-subscription row and the summary row; a non-empty value is
rendered as-is in both. -/
theorem c7_createdby_na (s : Snapshot) :
    (s.createdBy = none ∨ s.createdBy = some "" →
        (subscriptionRow s)[5]? = some "N/A" ∧ (summaryRow s)[3]? = some "N/A") ∧
    (∀ v, s.createdBy = some v → v ≠ "" →
        (subscriptionRow s)[5]? = some v ∧ (summaryRow s)[3]? = some v) := by
  constructor
  · intro h
    rcases h with h | h <;> simp [subscriptionRow, summaryRow, createdByCell, h]
  · intro v h hv
    simp [subscriptionRow, summaryRow, createdByCell, h, hv]

/-- Witness for C7: a null `createdBy` renders as `N/A` in both rows. -/
theorem c7_createdby_na_witness :
    (subscriptionRow ⟨"snap", "rg", "t", 100, "id1", "Attached", none⟩)[5]? =
      some "N/A" ∧
    (summaryRow ⟨"snap", "rg", "t", 100, "id1", "Attached", none⟩)[3]? =
      some "N/A" :=
  (c7_createdby_na ⟨"snap", "rg", "t", 100, "id1", "Attached", none⟩).1 (Or.inl rfl)

/-- C8: with no subscriptions the flow prints only the error suggesting
re-authentication and terminates: the output is independent of the
snapshot fetcher (no snapshot query is issued) and contains no table. -/
theorem c8_no_subscriptions_early_exit
    (fetch fetch' : Subscription → List Snapshot) :
    main_after_subscriptions fetch [] =
      [ConsoleOut.line
        "No subscriptions found. Please make sure you\x27re logged in with \x27az login\x27."] ∧
    main_after_subscriptions fetch [] = main_after_subscriptions fetch' [] ∧
    ∀ title rows, ConsoleOut.table title rows ∉ main_after_subscriptions fetch [] := by
  refine ⟨rfl, rfl, ?_⟩
  intro title rows hmem
  simp [main_after_subscriptions] at hmem

/-- Witness for C8: no summary table is rendered on early exit. -/
theorem c8_no_subscriptions_early_exit_witness :
    ConsoleOut.table "Snapshot Summary" [] ∉
      main_after_subscriptions (fun _ => []) [] :=
  (c8_no_subscriptions_early_exit (fun _ => []) (fun _ => [])).2.2
    "Snapshot Summary" []
